import Mathlib

/-!
# gorum: request handlers, route registration and listener start-up

A shallow embedding of

* `internal/app/handlers/data.go` (`Data`),
* `internal/app/handlers/editpassword.go` (`EditPassword`),
* `internal/app/handlers/register.go` (`Register`),
* `cmd/gorum.go` (`RegisterHandler`, `listen`).

Go strings are embedded as `String`; the only bytes the handlers look for are
the ASCII characters `/` and `.`, which never occur inside a multi-byte
UTF-8 sequence, so searching characters and searching bytes agree.
Everything a handler does to the outside world (response writer, file
system, database, captcha store, password hashing) is explicit state or an
explicit record of calls.
-/

namespace Gorum

/-! ## Strings -/

/-- `strings.Replace(s, "/", "", 1)` on the characters of `s`: the first
occurrence of `/` is removed, everything else is kept. -/
def removeFirstSlash : List Char → List Char
  | [] => []
  | c :: cs => if c = '/' then cs else c :: removeFirstSlash cs

/-- `strings.Contains(s, substr)` on character lists. -/
def containsChars : List Char → List Char → Bool
  | [], sub => sub.isEmpty
  | c :: cs, sub => sub.isPrefixOf (c :: cs) || containsChars cs sub

/-- `strings.Replace(s, "/", "", 1)`. -/
def stringsReplaceSlashOnce (s : String) : String :=
  ⟨removeFirstSlash s.data⟩

/-- `strings.Contains(s, substr)`. -/
def stringsContains (s substr : String) : Bool :=
  containsChars s.data substr.data

/-- `filepath.Ext(path)`: the suffix beginning at the final dot in the final
slash-separated element of `path`; empty if there is no dot.  The scan runs
from the end of the path, so it is written over the reversed characters with
the characters already passed in `acc`. -/
def extScan : List Char → List Char → List Char
  | [], _ => []
  | c :: rest, acc =>
    if c = '/' then []
    else if c = '.' then c :: acc
    else extScan rest (c :: acc)

/-- `filepath.Ext(path)`. -/
def filepathExt (path : String) : String :=
  ⟨extScan path.data.reverse []⟩

/-- `[]byte(s)`: the UTF-8 bytes of a string. -/
def bytesOf (s : String) : List UInt8 :=
  s.toUTF8.data.toList

/-! ## The response writer -/

/-- The observable state of an `http.ResponseWriter`: the header map, the
status line (absent until the header is written) and the body bytes. -/
structure ResponseWriter where
  header : List (String × String)
  status : Option Nat
  body : List UInt8

/-- `validHeaderFieldByte` of `net/textproto`: the token characters of a
header field name (ASCII letters, digits and the fifteen symbols of RFC 7230,
given by their codes). -/
def validHeaderFieldChar (c : Char) : Bool :=
  c.isAlphanum ||
    [33, 35, 36, 37, 38, 39, 42, 43, 45, 46, 94, 95, 96, 124, 126].contains c.toNat

/-- The rewriting loop of `canonicalMIMEHeaderKey`: upper case for the first
letter and for a letter after a dash, lower case elsewhere; `upper` says
whether the next character starts a word. -/
def canonicalChars : Bool → List Char → List Char
  | _, [] => []
  | upper, c :: cs =>
    let c := if upper then c.toUpper else c.toLower
    c :: canonicalChars (c = '-') cs

/-- `textproto.CanonicalMIMEHeaderKey(s)`: a key with a character that is
not valid in a field name is returned unchanged. -/
def canonicalMIMEHeaderKey (s : String) : String :=
  if s.data.all validHeaderFieldChar then ⟨canonicalChars true s.data⟩ else s

/-- `rw.Header().Set(key, value)`: the key is canonicalised and whatever was
stored under it is replaced. -/
def headerSet (h : List (String × String)) (key value : String) : List (String × String) :=
  (canonicalMIMEHeaderKey key, value) ::
    h.filter (fun kv => kv.1 ≠ canonicalMIMEHeaderKey key)

/-- `rw.Header().Get(key)`: the value stored under the canonicalised key. -/
def headerGet (h : List (String × String)) (key : String) : Option String :=
  h.lookup (canonicalMIMEHeaderKey key)

/-- `rw.Header().Set(key, value)` on the writer. -/
def ResponseWriter.setHeader (rw : ResponseWriter) (key value : String) : ResponseWriter :=
  { rw with header := headerSet rw.header key value }

/-- `rw.WriteHeader(code)`: fixes the status unless it is already fixed. -/
def ResponseWriter.WriteHeader (rw : ResponseWriter) (code : Nat) : ResponseWriter :=
  match rw.status with
  | none => { rw with status := some code }
  | some _ => rw

/-- `rw.Write(b)`: the first write fixes status 200 if no status was written. -/
def ResponseWriter.Write (rw : ResponseWriter) (b : List UInt8) : ResponseWriter :=
  { (rw.WriteHeader 200) with body := rw.body ++ b }

/-- A writer as the server hands it to a handler: nothing written yet. -/
def ResponseWriter.fresh (header : List (String × String)) : ResponseWriter :=
  { header := header, status := none, body := [] }

/-! ## `Data` -/

/-- An opened `*os.File` as `io.Copy` sees it: the bytes it yields and the
read error, if any, that ends the copy after them. -/
structure File where
  content : List UInt8
  readErr : Option String

/-- What `Data` depends on outside its own body. -/
structure DataEnv where
  /-- `os.Open(path)`: the file, or the text of the error. -/
  osOpen : String → Except String File
  /-- `mime.TypeByExtension(ext)`. -/
  mimeTypeByExtension : String → String
  /-- The fixed headers `SecurityHeaders` sets, in order. -/
  securityHeaders : List (String × String)
  /-- The gzip stream produced for the given level and input. -/
  gzip : Nat → List UInt8 → List UInt8

/-- Modelled from the spec: `SecurityHeaders` is called by `Data` but its
body is not among the embedded files.  Section 4.6: it "sets a fixed,
non-configurable set of hardening response headers", a "pure side effect on
the outgoing header set"; which headers these are is left to the
environment. -/
def SecurityHeaders (env : DataEnv) (rw : ResponseWriter) : ResponseWriter :=
  env.securityHeaders.foldl (fun w kv => w.setHeader kv.1 kv.2) rw

/-- Everything one call of `Data` did. -/
structure DataResult where
  /-- The response writer when `Data` has returned (deferred calls included). -/
  rw : ResponseWriter
  /-- The paths given to `os.Open`, in order. -/
  opened : List String
  /-- The bytes written to the gzip writer; `none` if none was created. -/
  gzipInput : Option (List UInt8)
  /-- The lines passed to `log.Println`. -/
  logged : List String

/-- The gzip writer of `Data`, from creation to its deferred `Close`: the
stream for everything written to it reaches the response writer. -/
def gzipRespond (env : DataEnv) (rw : ResponseWriter) (input : List UInt8) : ResponseWriter :=
  rw.Write (env.gzip 2 input)

/-- `Data(rw, r)` with `urlPath` the value of `r.URL.Path`. -/
def Data (env : DataEnv) (rw : ResponseWriter) (urlPath : String) : DataResult :=
  -- check for malicious path
  let path := stringsReplaceSlashOnce urlPath
  if stringsContains path ".." then
    { rw := (rw.WriteHeader 400).Write [], opened := [], gzipInput := none, logged := [] }
  else
    -- default paths
    let path := if path = "data/avatar/default" then "assets/avatar.png" else path
    -- open file
    let file := env.osOpen path
    -- set content-type and content-encoding
    let rw := rw.setHeader "Content-Type"
      (env.mimeTypeByExtension (filepathExt path) ++ "; charset=utf-8")
    let rw := rw.setHeader "Content-Encoding" "gzip"
    -- security headers
    let rw := SecurityHeaders env rw
    match file with
    | .error err =>
      -- unknown error
      { rw := gzipRespond env rw (bytesOf err), opened := [path],
        gzipInput := some (bytesOf err), logged := [err] }
    | .ok f =>
      -- write file
      match f.readErr with
      | some err =>
        { rw := gzipRespond env rw (f.content ++ bytesOf err), opened := [path],
          gzipInput := some (f.content ++ bytesOf err), logged := [err] }
      | none =>
        { rw := gzipRespond env rw f.content, opened := [path],
          gzipInput := some f.content, logged := [] }

/-- A request path as `net/http` hands it to a handler in `r.URL.Path`: the
server only accepts request targets whose path begins with `/`, and `Data`
is registered under the pattern `/data/`. -/
def IsRequestPath (p : String) : Prop :=
  p.data.head? = some '/'

/-- The claim's "p contains the substring `..`". -/
def HasDotDot (p : String) : Prop :=
  ['.', '.'] <:+: p.data

/-! ## The business handlers: request maps, results, collaborators -/

/-- A decoded JSON value, the dynamic type of an entry of
`map[string]interface{}`.  Numbers carry an integer: no handler reads one. -/
inductive Value where
  | null
  | bool (b : Bool)
  | number (n : Int)
  | string (s : String)
  | array (items : List Value)
  | object (fields : List (String × Value))

/-- The request map `map[string]interface{}`: the entry of a key is the
first pair that carries it. -/
abbrev RequestMap := List (String × Value)

/-- Modelled from the spec: `GetString` is called by the handlers but its
body is not among the embedded files.  Section 4.2: a typed accessor
"return[s] the type's zero value when the key is absent or of the wrong
type"; for a key that holds a string it returns that string. -/
def GetString (request : RequestMap) (key : String) : String :=
  match request.lookup key with
  | some (.string s) => s
  | _ => ""

/-- What a handler returns as `interface{}`: an `error` (its text is
`err.Error()`) or a response map. -/
inductive HandlerResult where
  | error (text : String)
  | map (fields : List (String × Value))

/-- A call a handler makes to a collaborator, recorded in order. -/
inductive Call where
  | captchaVerifyString (id digits : String)
  | bcryptGenerateFromPassword (password : String) (cost : Nat)
  | dbQueryRow (query : String) (args : List String)
  | dbExec (query : String) (args : List String)
  deriving DecidableEq

/-- A row of `users`, by the columns the two handlers name. -/
structure UserRow where
  username : String
  passwordhash : String
  registered : String
  deriving DecidableEq

/-- The database behind `db.DB`: the rows of `users`. -/
structure DB where
  users : List UserRow
  deriving DecidableEq

/-- The collaborators of the handlers during one call. -/
structure HandlerEnv where
  /-- `config.Get(section, key)`. -/
  configGet : String → String → String
  /-- The package constant `TRUE` the captcha flag is compared with. -/
  TRUE : String
  /-- `captcha.VerifyString(id, digits)`. -/
  captchaVerifyString : String → String → Bool
  /-- `bcrypt.GenerateFromPassword(password, cost)`: the hash or the error text. -/
  bcryptGenerateFromPassword : String → Nat → Except String String
  /-- `time.Now().Format("2006-01-02T15:04:05")`. -/
  now : String
  /-- The error with which the database fails a query, if it does. -/
  queryFailure : Option String
  /-- The error with which the database fails a statement, if it does. -/
  execFailure : Option String

/-- `bcrypt.DefaultCost`. -/
def bcryptDefaultCost : Nat := 10

/-- What a handler call leaves behind: the returned value, the database and
the calls made to collaborators. -/
structure Outcome where
  result : HandlerResult
  db : DB
  calls : List Call

/-- The `err` of `db.DB.QueryRow(...).Scan(&id)`. -/
inductive ScanError where
  | nil
  | errNoRows
  | other (text : String)

/-- `db.DB.QueryRow("SELECT id FROM users WHERE username = $1;", username).Scan(&id)`. -/
def queryUserId (env : HandlerEnv) (db : DB) (username : String) : ScanError :=
  match env.queryFailure with
  | some e => .other e
  | none => if db.users.any (fun r => r.username = username) then .nil else .errNoRows

/-- `UPDATE users SET passwordhash = $1 WHERE username = $2;` -/
def updatePasswordhash (db : DB) (passwordHash username : String) : DB :=
  { users := db.users.map
      (fun r => if r.username = username then { r with passwordhash := passwordHash } else r) }

/-- `INSERT INTO users (username, passwordhash, registered) VALUES ($1, $2, $3);` -/
def insertUser (db : DB) (username passwordHash registered : String) : DB :=
  { users := db.users ++
      [{ username := username, passwordhash := passwordHash, registered := registered }] }

/-- `EditPassword(request, username, auth)`. -/
def EditPassword (env : HandlerEnv) (db : DB) (request : RequestMap) (username : String)
    (auth : Bool) : Outcome :=
  -- authenticate
  if !auth then
    { result := .error "403", db := db, calls := [] }
  else
    -- check if new password provided
    let newPassword := GetString request "newPassword"
    if newPassword = "" then
      { result := .error "400", db := db, calls := [] }
    else
      -- generate new password hash
      let calls := [Call.bcryptGenerateFromPassword newPassword (bcryptDefaultCost + 1)]
      match env.bcryptGenerateFromPassword newPassword (bcryptDefaultCost + 1) with
      | .error e => { result := .error e, db := db, calls := calls }
      | .ok passwordHash =>
        -- update password
        let calls := calls ++
          [Call.dbExec "UPDATE users SET passwordhash = $1 WHERE username = $2;"
            [passwordHash, username]]
        match env.execFailure with
        | some e => { result := .error e, db := db, calls := calls }
        | none =>
          { result := .map [("success", .bool true)],
            db := updatePasswordhash db passwordHash username, calls := calls }

/-- `Register(request, username, auth)`. -/
def Register (env : HandlerEnv) (db : DB) (request : RequestMap) (username : String)
    (_auth : Bool) : Outcome :=
  -- get strings from request
  let password := GetString request "password"
  let cap := GetString request "captcha"
  let capVal := GetString request "captchaValue"
  -- check if username and password are provided
  if username = "" ∨ password = "" ∨ username.utf8ByteSize > 32 then
    { result := .error "400", db := db, calls := [] }
  else
    -- verify captcha (the right operand of && runs only if the left one holds)
    let captchaOn : Bool := env.configGet "https" "captcha" = env.TRUE
    let calls := if captchaOn then [Call.captchaVerifyString cap capVal] else []
    if captchaOn && !env.captchaVerifyString cap capVal then
      { result := .error "403 captcha", db := db, calls := calls }
    else
      -- query db
      let calls := calls ++ [Call.dbQueryRow "SELECT id FROM users WHERE username = $1;" [username]]
      match queryUserId env db username with
      | .errNoRows =>
        -- not exists
        let calls := calls ++ [Call.bcryptGenerateFromPassword password (bcryptDefaultCost + 1)]
        match env.bcryptGenerateFromPassword password (bcryptDefaultCost + 1) with
        | .error e => { result := .error e, db := db, calls := calls }
        | .ok passwordHash =>
          -- insert into database
          let calls := calls ++
            [Call.dbExec
              "INSERT INTO users (username, passwordhash, registered) VALUES ($1, $2, $3);"
              [username, passwordHash, env.now]]
          match env.execFailure with
          | some e => { result := .error e, db := db, calls := calls }
          | none =>
            -- registered
            { result := .map [("done", .bool true)],
              db := insertUser db username passwordHash env.now, calls := calls }
      | .other e => { result := .error e, db := db, calls := calls }
      | .nil =>
        -- username exists
        { result := .map [("done", .bool false)], db := db, calls := calls }

/-- The claim's "the key is absent, not a string, or the empty string". -/
def NotProvided (request : RequestMap) (key : String) : Prop :=
  request.lookup key = none ∨
  (∃ v, request.lookup key = some v ∧ ∀ s, v ≠ .string s) ∨
  request.lookup key = some (.string "")

/-- The claim's "a row with the given username exists". -/
def HasUser (db : DB) (username : String) : Prop :=
  ∃ r ∈ db.users, r.username = username

/-- The claim's "captcha disabled or successfully verified": the gate of
`Register` lets the request through. -/
def CaptchaPasses (env : HandlerEnv) (request : RequestMap) : Prop :=
  env.configGet "https" "captcha" ≠ env.TRUE ∨
  env.captchaVerifyString (GetString request "captcha")
    (GetString request "captchaValue") = true

/-- The claim's "a request with a non-empty password". -/
def HasPassword (request : RequestMap) (password : String) : Prop :=
  request.lookup "password" = some (.string password) ∧ password ≠ ""

/-! ## `cmd/gorum.go`: route registration -/

/-- The pattern table `m` of an `http.ServeMux` (the default one for
`http.HandleFunc`), newest entry first. -/
structure ServeMux (η : Type) where
  m : List (String × η)

/-- The mux before any registration. -/
def ServeMux.empty (η : Type) : ServeMux η :=
  { m := [] }

/-- The handler bound to exactly `pattern`: `mux.m[pattern]`. -/
def ServeMux.binding {η : Type} (mux : ServeMux η) (pattern : String) : Option η :=
  mux.m.lookup pattern

/-- The number of bindings stored for `pattern`. -/
def ServeMux.bindingCount {η : Type} (mux : ServeMux η) (pattern : String) : Nat :=
  (mux.m.filter (fun e => e.1 = pattern)).length

/-- `http.HandleFunc(pattern, handler)`, that is `ServeMux.Handle` on the
default mux: it panics on an empty pattern and on a pattern that is already
registered ("http: multiple registrations for " + pattern); the panic is the
`error` result, carrying the panic text.  (Its third panic, on a nil
handler, cannot arise: a handler of type `η` is never nil.) -/
def ServeMux.HandleFunc {η : Type} (mux : ServeMux η) (pattern : String) (handler : η) :
    Except String (ServeMux η) :=
  if pattern = "" then
    .error "http: invalid pattern"
  else if (mux.m.lookup pattern).isSome then
    .error ("http: multiple registrations for " ++ pattern)
  else
    .ok { m := (pattern, handler) :: mux.m }

/-- `RegisterHandler(url, handler)`; `GenerateHandler` (not among the embedded
files) turns a business handler `α` into an `http.HandlerFunc` `η`. -/
def RegisterHandler {α η : Type} (GenerateHandler : α → η) (mux : ServeMux η) (url : String)
    (handler : α) : Except String (ServeMux η) :=
  mux.HandleFunc ("/api/" ++ url) (GenerateHandler handler)

/-! ## `cmd/gorum.go`: the listener -/

/-- The cipher-suite constants of `crypto/tls`. -/
inductive CipherSuite where
  | TLS_RSA_WITH_RC4_128_SHA
  | TLS_RSA_WITH_3DES_EDE_CBC_SHA
  | TLS_RSA_WITH_AES_128_CBC_SHA
  | TLS_RSA_WITH_AES_256_CBC_SHA
  | TLS_RSA_WITH_AES_128_CBC_SHA256
  | TLS_RSA_WITH_AES_128_GCM_SHA256
  | TLS_RSA_WITH_AES_256_GCM_SHA384
  | TLS_ECDHE_ECDSA_WITH_RC4_128_SHA
  | TLS_ECDHE_ECDSA_WITH_AES_128_CBC_SHA
  | TLS_ECDHE_ECDSA_WITH_AES_256_CBC_SHA
  | TLS_ECDHE_RSA_WITH_RC4_128_SHA
  | TLS_ECDHE_RSA_WITH_3DES_EDE_CBC_SHA
  | TLS_ECDHE_RSA_WITH_AES_128_CBC_SHA
  | TLS_ECDHE_RSA_WITH_AES_256_CBC_SHA
  | TLS_ECDHE_ECDSA_WITH_AES_128_CBC_SHA256
  | TLS_ECDHE_RSA_WITH_AES_128_CBC_SHA256
  | TLS_ECDHE_RSA_WITH_AES_128_GCM_SHA256
  | TLS_ECDHE_ECDSA_WITH_AES_128_GCM_SHA256
  | TLS_ECDHE_RSA_WITH_AES_256_GCM_SHA384
  | TLS_ECDHE_ECDSA_WITH_AES_256_GCM_SHA384
  | TLS_ECDHE_RSA_WITH_CHACHA20_POLY1305
  | TLS_ECDHE_ECDSA_WITH_CHACHA20_POLY1305
  deriving DecidableEq

/-- How a suite agrees on keys. -/
inductive KeyExchange where
  | RSA
  | ECDHE
  deriving DecidableEq

/-- The record protection of a suite. -/
inductive BulkCipher where
  | RC4_128
  | TripleDES_EDE_CBC
  | AES_128_CBC
  | AES_256_CBC
  | AES_128_GCM
  | AES_256_GCM
  | CHACHA20_POLY1305
  deriving DecidableEq

/-- The key exchange a suite's name states (the part before `WITH`). -/
def CipherSuite.keyExchange : CipherSuite → KeyExchange
  | .TLS_RSA_WITH_RC4_128_SHA | .TLS_RSA_WITH_3DES_EDE_CBC_SHA | .TLS_RSA_WITH_AES_128_CBC_SHA
  | .TLS_RSA_WITH_AES_256_CBC_SHA | .TLS_RSA_WITH_AES_128_CBC_SHA256
  | .TLS_RSA_WITH_AES_128_GCM_SHA256 | .TLS_RSA_WITH_AES_256_GCM_SHA384 => .RSA
  | _ => .ECDHE

/-- The cipher a suite's name states (the part after `WITH`). -/
def CipherSuite.cipher : CipherSuite → BulkCipher
  | .TLS_RSA_WITH_RC4_128_SHA | .TLS_ECDHE_ECDSA_WITH_RC4_128_SHA
  | .TLS_ECDHE_RSA_WITH_RC4_128_SHA => .RC4_128
  | .TLS_RSA_WITH_3DES_EDE_CBC_SHA | .TLS_ECDHE_RSA_WITH_3DES_EDE_CBC_SHA => .TripleDES_EDE_CBC
  | .TLS_RSA_WITH_AES_128_CBC_SHA | .TLS_RSA_WITH_AES_128_CBC_SHA256
  | .TLS_ECDHE_ECDSA_WITH_AES_128_CBC_SHA | .TLS_ECDHE_RSA_WITH_AES_128_CBC_SHA
  | .TLS_ECDHE_ECDSA_WITH_AES_128_CBC_SHA256 | .TLS_ECDHE_RSA_WITH_AES_128_CBC_SHA256 =>
    .AES_128_CBC
  | .TLS_RSA_WITH_AES_256_CBC_SHA | .TLS_ECDHE_ECDSA_WITH_AES_256_CBC_SHA
  | .TLS_ECDHE_RSA_WITH_AES_256_CBC_SHA => .AES_256_CBC
  | .TLS_RSA_WITH_AES_128_GCM_SHA256 | .TLS_ECDHE_RSA_WITH_AES_128_GCM_SHA256
  | .TLS_ECDHE_ECDSA_WITH_AES_128_GCM_SHA256 => .AES_128_GCM
  | .TLS_RSA_WITH_AES_256_GCM_SHA384 | .TLS_ECDHE_RSA_WITH_AES_256_GCM_SHA384
  | .TLS_ECDHE_ECDSA_WITH_AES_256_GCM_SHA384 => .AES_256_GCM
  | .TLS_ECDHE_RSA_WITH_CHACHA20_POLY1305 | .TLS_ECDHE_ECDSA_WITH_CHACHA20_POLY1305 =>
    .CHACHA20_POLY1305

/-- AEAD ciphers: the GCM modes of AES and ChaCha20-Poly1305. -/
def BulkCipher.isAEAD : BulkCipher → Bool
  | .AES_128_GCM | .AES_256_GCM | .CHACHA20_POLY1305 => true
  | _ => false

/-- The curve constants of `crypto/tls`. -/
inductive CurveID where
  | CurveP256
  | CurveP384
  | CurveP521
  | X25519
  deriving DecidableEq

/-- The protocol-version constants of `crypto/tls`. -/
inductive TLSVersion where
  | VersionSSL30
  | VersionTLS10
  | VersionTLS11
  | VersionTLS12
  deriving DecidableEq

/-- The fields of `tls.Config` that `listen` sets. -/
structure TLSConfig where
  MinVersion : TLSVersion
  CipherSuites : List CipherSuite
  CurvePreferences : List CurveID
  deriving DecidableEq

/-- The fields of `http.Server` that `listen` sets. -/
structure HttpServer where
  Addr : String
  TLSConfig : Option TLSConfig
  deriving DecidableEq

/-- The blocking call `listen` ends in. -/
inductive ServeCall where
  | ListenAndServe (server : HttpServer)
  | ListenAndServeTLS (server : HttpServer) (certFile keyFile : String)
  deriving DecidableEq

/-- The state at the moment `listen` starts serving. -/
structure ListenState where
  /-- The package-level variable `Server` (`none` is `nil`). -/
  Server : Option HttpServer
  /-- The line given to `log.Printf`. -/
  logged : String
  /-- The serving call and the server value it is made on. -/
  serve : ServeCall
  deriving DecidableEq

/-- `strings.HasPrefix(address, ":")`. -/
def startsWithColon (address : String) : Bool :=
  [':'].isPrefixOf address.data

/-- `listen()`: `configGet` is `config.Get`, `Server` the value of the
package-level variable when `listen` is entered.  In the TLS branch the
source declares a new local with `Server := ...`; the package-level variable
is not assigned there. -/
def listen (configGet : String → String → String) (Server : Option HttpServer) : ListenState :=
  -- define http(s) variable
  let address := configGet "https" "address"
  let certificate := configGet "https" "certificate"
  let key := configGet "https" "key"
  -- address as usable url
  let url := if startsWithColon address then "localhost" ++ address else address
  -- check if certicate and key file provided
  if certificate = "" ∨ key = "" then
    -- http server
    let server : HttpServer := { Addr := address, TLSConfig := none }
    { Server := some server,
      logged := "Webserver listening at http://" ++ url ++ "/\n",
      serve := .ListenAndServe server }
  else
    -- https/tls server
    let localServer : HttpServer :=
      { Addr := address,
        TLSConfig := some
          { MinVersion := .VersionTLS12,
            CipherSuites :=
              [ .TLS_ECDHE_ECDSA_WITH_CHACHA20_POLY1305,
                .TLS_ECDHE_RSA_WITH_CHACHA20_POLY1305,
                .TLS_ECDHE_ECDSA_WITH_AES_256_GCM_SHA384,
                .TLS_ECDHE_RSA_WITH_AES_256_GCM_SHA384,
                .TLS_ECDHE_ECDSA_WITH_AES_128_GCM_SHA256,
                .TLS_ECDHE_RSA_WITH_AES_128_GCM_SHA256 ],
            CurvePreferences := [.X25519, .CurveP256, .CurveP384, .CurveP521] } }
    { Server := Server,
      logged := "Webserver listening at https://" ++ url ++ "/\n",
      serve := .ListenAndServeTLS localServer certificate key }

/-- The server value a serving call is made on. -/
def ServeCall.server : ServeCall → HttpServer
  | .ListenAndServe s => s
  | .ListenAndServeTLS s _ _ => s

/-- Whether a serving call is the plaintext one. -/
def ServeCall.isPlaintext : ServeCall → Bool
  | .ListenAndServe _ => true
  | .ListenAndServeTLS _ _ _ => false

/-! ## Concrete collaborators, for evaluating the definitions -/

/-- A file system holding only the default avatar, two security headers, and
a stand-in compressor (magic bytes, then the input stored). -/
def sampleDataEnv : DataEnv :=
  { osOpen := fun path =>
      if path = "assets/avatar.png" then .ok { content := [137, 80, 78, 71], readErr := none }
      else .error ("open " ++ path ++ ": no such file or directory")
    mimeTypeByExtension := fun ext => if ext = ".png" then "image/png" else ""
    securityHeaders := [("X-Frame-Options", "SAMEORIGIN"), ("X-Content-Type-Options", "nosniff")]
    gzip := fun _ input => 31 :: 139 :: input }

/-- A configuration given as sections of key/value pairs; an unknown key
reads as the empty string. -/
def sampleConfigGet (entries : List (String × String × String)) (sect key : String) : String :=
  match entries.find? (fun e => e.1 = sect ∧ e.2.1 = key) with
  | some e => e.2.2
  | none => ""

/-- Collaborators that all succeed; the captcha flag is as given and the
captcha store accepts only the pair `("c1", "123456")`; the stand-in hash
prefixes the password with a version-and-cost tag. -/
def sampleHandlerEnv (captcha : String) : HandlerEnv :=
  { configGet := sampleConfigGet [("https", "captcha", captcha)]
    TRUE := "true"
    captchaVerifyString := fun id digits => id = "c1" ∧ digits = "123456"
    bcryptGenerateFromPassword := fun password cost =>
      if cost = 11 then .ok ("$2a$11$" ++ password) else .error "bcrypt: unexpected cost"
    now := "2018-10-01T12:00:00"
    queryFailure := none
    execFailure := none }

/-- A `users` table in which alice is registered. -/
def sampleUsers : DB :=
  { users := [{ username := "alice", passwordhash := "$2a$11$secret123",
                registered := "2018-10-01T12:00:00" }] }

/-- A configuration with a certificate and a key. -/
def sampleTLSConfigGet : String → String → String :=
  sampleConfigGet [("https", "address", ":443"), ("https", "certificate", "cert.pem"),
    ("https", "key", "key.pem")]

/-- A configuration without certificate and key. -/
def samplePlainConfigGet : String → String → String :=
  sampleConfigGet [("https", "address", ":8080"), ("https", "certificate", ""),
    ("https", "key", "")]

/-- Two business handlers to register. -/
def sampleHandlerA : RequestMap → String → Bool → HandlerResult :=
  fun _ _ _ => .error "403"

/-- The second of the two business handlers. -/
def sampleHandlerB : RequestMap → String → Bool → HandlerResult :=
  fun _ _ _ => .map [("done", .bool true)]

end Gorum

namespace Gorum

/-! ## Facts about the string functions -/

theorem containsChars_iff (cs sub : List Char) :
    containsChars cs sub = true ↔ sub <:+: cs := by
  induction cs with
  | nil =>
    cases sub <;> simp [containsChars]
  | cons c cs ih =>
    rw [containsChars, Bool.or_eq_true, ih, List.infix_cons_iff, List.isPrefixOf_iff_prefix]

theorem removeFirstSlash_infix (cs : List Char) (h : ['.', '.'] <:+: cs) :
    ['.', '.'] <:+: removeFirstSlash cs := by
  induction cs with
  | nil => simp at h
  | cons c cs ih =>
    rw [List.infix_cons_iff] at h
    by_cases hc : c = '/'
    · subst hc
      rcases h with h | h
      · obtain ⟨t, ht⟩ := h
        simp at ht
      · simpa [removeFirstSlash] using h
    · rw [removeFirstSlash, if_neg hc, List.infix_cons_iff]
      rcases h with h | h
      · left
        obtain ⟨t, ht⟩ := h
        simp only [List.cons_append, List.nil_append, List.cons.injEq] at ht
        obtain ⟨hc1, hcs⟩ := ht
        subst hc1
        subst hcs
        simp [removeFirstSlash]
      · exact Or.inr (ih h)

theorem stringsContains_iff (p : String) :
    stringsContains p ".." = true ↔ HasDotDot p := by
  unfold stringsContains HasDotDot
  rw [containsChars_iff]

theorem contains_after_replace (p : String) (h : HasDotDot p) :
    stringsContains (stringsReplaceSlashOnce p) ".." = true := by
  rw [stringsContains_iff]
  exact removeFirstSlash_infix p.data h

/-- C1. Every request path that contains `..` is answered by `Data` with
status 400 and an empty body; no file is opened, no header is set and no gzip
writer is created.  It holds for every path, with or without a leading slash,
although the check runs on the path with its first `/` removed. -/
theorem Data_rejects_dotdot (env : DataEnv) (header : List (String × String))
    (p : String) (h : HasDotDot p) :
    Data env (ResponseWriter.fresh header) p =
      { rw := { header := header, status := some 400, body := [] },
        opened := [], gzipInput := none, logged := [] } := by
  unfold Data
  simp only [contains_after_replace p h, if_true]
  rfl

/-- C1 at Scenario D: the path `/data/../../etc/passwd`. -/
theorem Data_rejects_dotdot_witness :
    HasDotDot "/data/../../etc/passwd" ∧
    Data sampleDataEnv (ResponseWriter.fresh []) "/data/../../etc/passwd" =
      { rw := { header := [], status := some 400, body := [] },
        opened := [], gzipInput := none, logged := [] } :=
  ⟨⟨"/data/".data, "/../etc/passwd".data, rfl⟩,
   Data_rejects_dotdot sampleDataEnv [] "/data/../../etc/passwd"
     ⟨"/data/".data, "/../etc/passwd".data, rfl⟩⟩

/-! ## Facts about the response writer -/

theorem lookup_filter_ne (h : List (String × String)) (key k : String) (hk : k ≠ key) :
    (h.filter (fun kv => kv.1 ≠ key)).lookup k = h.lookup k := by
  induction h with
  | nil => rfl
  | cons kv h ih =>
    obtain ⟨a, b⟩ := kv
    simp only [decide_not] at ih
    by_cases ha : a = key
    · subst ha
      have hne : (k == a) = false := by simpa using hk
      simp [List.filter_cons, List.lookup_cons, hne, ih]
    · by_cases hka : k = a
      · subst hka
        simp [List.filter_cons, List.lookup_cons, ha]
      · have hne : (k == a) = false := by simpa using hka
        simp [List.filter_cons, List.lookup_cons, ha, hne, ih]

theorem headerGet_headerSet_same (h : List (String × String)) (key value : String) :
    headerGet (headerSet h key value) key = some value := by
  simp [headerGet, headerSet, List.lookup_cons]

theorem headerGet_headerSet_ne (h : List (String × String)) (key value k : String)
    (hk : canonicalMIMEHeaderKey k ≠ canonicalMIMEHeaderKey key) :
    headerGet (headerSet h key value) k = headerGet h k := by
  have hne : (canonicalMIMEHeaderKey k == canonicalMIMEHeaderKey key) = false := by
    simpa using hk
  simp only [headerGet, headerSet, List.lookup_cons, hne]
  exact lookup_filter_ne h _ _ hk

theorem foldl_setHeader_status (l : List (String × String)) (rw : ResponseWriter) :
    (l.foldl (fun w kv => w.setHeader kv.1 kv.2) rw).status = rw.status ∧
    (l.foldl (fun w kv => w.setHeader kv.1 kv.2) rw).body = rw.body := by
  induction l generalizing rw with
  | nil => exact ⟨rfl, rfl⟩
  | cons kv l ih =>
    rw [List.foldl_cons]
    exact ih _

theorem foldl_setHeader_get (l : List (String × String)) (rw : ResponseWriter) (k : String)
    (hl : ∀ kv ∈ l, canonicalMIMEHeaderKey kv.1 ≠ canonicalMIMEHeaderKey k) :
    headerGet (l.foldl (fun w kv => w.setHeader kv.1 kv.2) rw).header k =
      headerGet rw.header k := by
  induction l generalizing rw with
  | nil => rfl
  | cons kv l ih =>
    rw [List.foldl_cons, ih _ (fun x hx => hl x (List.mem_cons_of_mem _ hx))]
    exact headerGet_headerSet_ne _ _ _ _ (fun h => hl kv (List.mem_cons_self _ _) h.symm)

/-! ## Facts about the accessors -/

theorem GetString_of_notProvided (request : RequestMap) (key : String)
    (h : NotProvided request key) : GetString request key = "" := by
  unfold GetString
  rcases h with h | ⟨v, hv, hs⟩ | h
  · rw [h]
  · rw [hv]
    cases v with
    | string s => exact absurd rfl (hs s)
    | _ => rfl
  · rw [h]

theorem GetString_of_string (request : RequestMap) (key s : String)
    (h : request.lookup key = some (.string s)) : GetString request key = s := by
  unfold GetString
  rw [h]

theorem ne_empty_of_byteSize (s : String) (h : 1 ≤ s.utf8ByteSize) : s ≠ "" := by
  intro hs
  subst hs
  exact absurd h (by decide)

theorem any_username_of_hasUser (db : DB) (username : String) (h : HasUser db username) :
    db.users.any (fun r => r.username = username) = true := by
  obtain ⟨r, hr, hru⟩ := h
  rw [List.any_eq_true]
  exact ⟨r, hr, by simpa using hru⟩

theorem any_username_of_no_user (db : DB) (username : String) (h : ¬ HasUser db username) :
    db.users.any (fun r => r.username = username) = false := by
  rw [Bool.eq_false_iff]
  intro hany
  rw [List.any_eq_true] at hany
  obtain ⟨r, hr, hru⟩ := hany
  exact h ⟨r, hr, by simpa using hru⟩

/-- `Register` never changes a `users` table that already has the username. -/
theorem Register_db_of_hasUser (env : HandlerEnv) (db : DB) (request : RequestMap)
    (username : String) (auth : Bool) (h : HasUser db username) :
    (Register env db request username auth).db = db := by
  unfold Register queryUserId
  simp only [any_username_of_hasUser db username h, if_true]
  split
  · rfl
  · split
    · rfl
    · cases env.queryFailure <;> rfl

/-- With the validation and the captcha gate passed and the query answered,
an existing username gives `done: false`. -/
theorem Register_result_of_hasUser (env : HandlerEnv) (db : DB) (request : RequestMap)
    (username : String) (auth : Bool)
    (hu : username ≠ "") (hlen : username.utf8ByteSize ≤ 32)
    (hp : GetString request "password" ≠ "")
    (hcap : env.configGet "https" "captcha" ≠ env.TRUE ∨
      env.captchaVerifyString (GetString request "captcha")
        (GetString request "captchaValue") = true)
    (hq : env.queryFailure = none) (h : HasUser db username) :
    (Register env db request username auth).result = .map [("done", .bool false)] := by
  have hgate : ((decide (env.configGet "https" "captcha" = env.TRUE)) &&
      !env.captchaVerifyString (GetString request "captcha")
        (GetString request "captchaValue")) = false := by
    rcases hcap with hc | hc
    · simp [hc]
    · simp [hc]
  have hval : ¬ (username = "" ∨ GetString request "password" = "" ∨
      username.utf8ByteSize > 32) := by
    rintro (h1 | h1 | h1)
    · exact hu h1
    · exact hp h1
    · omega
  unfold Register queryUserId
  simp only [any_username_of_hasUser db username h, if_true, hq]
  rw [if_neg hval]
  simp only [hgate]
  rfl

/-- With the validation passed, a captcha that is required and does not
verify ends `Register` with "403 captcha", after the one call to the captcha
store. -/
theorem Register_of_captcha_fails (env : HandlerEnv) (db : DB) (request : RequestMap)
    (username : String) (auth : Bool)
    (hu : username ≠ "") (hlen : username.utf8ByteSize ≤ 32)
    (hp : GetString request "password" ≠ "")
    (hcap : ¬ CaptchaPasses env request) :
    Register env db request username auth =
      { result := .error "403 captcha", db := db,
        calls := [Call.captchaVerifyString (GetString request "captcha")
          (GetString request "captchaValue")] } := by
  unfold CaptchaPasses at hcap
  rw [not_or, not_not] at hcap
  obtain ⟨hon, hver⟩ := hcap
  have hver2 : env.captchaVerifyString (GetString request "captcha")
      (GetString request "captchaValue") = false := by
    simpa using hver
  have hval : ¬ (username = "" ∨ GetString request "password" = "" ∨
      username.utf8ByteSize > 32) := by
    rintro (h1 | h1 | h1)
    · exact hu h1
    · exact hp h1
    · omega
  unfold Register
  rw [if_neg hval]
  simp [hon, hver2]

/-- With every gate passed and every collaborator succeeding, a new username
is inserted with the hash the primitive returned. -/
theorem Register_of_no_user (env : HandlerEnv) (db : DB) (request : RequestMap)
    (username : String) (auth : Bool) (hash : String)
    (hu : username ≠ "") (hlen : username.utf8ByteSize ≤ 32)
    (hp : GetString request "password" ≠ "")
    (hcap : CaptchaPasses env request)
    (hq : env.queryFailure = none) (h : ¬ HasUser db username)
    (hh : env.bcryptGenerateFromPassword (GetString request "password") 11 = .ok hash)
    (he : env.execFailure = none) :
    (Register env db request username auth).result = .map [("done", .bool true)] ∧
    (Register env db request username auth).db = insertUser db username hash env.now ∧
    Call.dbExec "INSERT INTO users (username, passwordhash, registered) VALUES ($1, $2, $3);"
      [username, hash, env.now] ∈ (Register env db request username auth).calls := by
  have hgate : ((decide (env.configGet "https" "captcha" = env.TRUE)) &&
      !env.captchaVerifyString (GetString request "captcha")
        (GetString request "captchaValue")) = false := by
    rcases hcap with hc | hc
    · simp [hc]
    · simp [hc]
  have hval : ¬ (username = "" ∨ GetString request "password" = "" ∨
      username.utf8ByteSize > 32) := by
    rintro (h1 | h1 | h1)
    · exact hu h1
    · exact hp h1
    · omega
  have hcost : bcryptDefaultCost + 1 = 11 := rfl
  unfold Register queryUserId
  simp only [any_username_of_no_user db username h, hq, hcost, hh, he]
  rw [if_neg hval]
  simp only [hgate]
  refine ⟨rfl, rfl, ?_⟩
  simp

theorem Data_opened_of_clean (env : DataEnv) (rw : ResponseWriter) (p : String)
    (h : ¬ HasDotDot (stringsReplaceSlashOnce p)) :
    (Data env rw p).opened =
      [if stringsReplaceSlashOnce p = "data/avatar/default" then "assets/avatar.png"
       else stringsReplaceSlashOnce p] := by
  have hc : stringsContains (stringsReplaceSlashOnce p) ".." = false := by
    rw [Bool.eq_false_iff, Ne, stringsContains_iff]
    exact h
  unfold Data
  simp only [hc, Bool.false_eq_true, if_false]
  split
  · rfl
  · split <;> rfl

theorem clean_of_leading_slash (p : String) (hs : IsRequestPath p)
    (h : ¬ HasDotDot p) : ¬ HasDotDot (stringsReplaceSlashOnce p) := by
  unfold IsRequestPath at hs
  obtain ⟨cs⟩ := p
  cases cs with
  | nil => simp at hs
  | cons c cs =>
    simp only [List.head?_cons, Option.some.injEq] at hs
    subst hs
    intro hdd
    apply h
    unfold HasDotDot at hdd ⊢
    simp only [stringsReplaceSlashOnce, removeFirstSlash, if_true] at hdd
    exact List.infix_cons hdd

theorem SecurityHeaders_status (env : DataEnv) (rw : ResponseWriter) :
    (SecurityHeaders env rw).status = rw.status ∧ (SecurityHeaders env rw).body = rw.body :=
  foldl_setHeader_status env.securityHeaders rw

theorem SecurityHeaders_get (env : DataEnv) (rw : ResponseWriter) (k : String)
    (hl : ∀ kv ∈ env.securityHeaders,
      canonicalMIMEHeaderKey kv.1 ≠ canonicalMIMEHeaderKey k) :
    headerGet (SecurityHeaders env rw).header k = headerGet rw.header k :=
  foldl_setHeader_get env.securityHeaders rw k hl

theorem Write_of_unwritten (rw : ResponseWriter) (b : List UInt8) (hs : rw.status = none)
    (hb : rw.body = []) :
    (rw.Write b).status = some 200 ∧ (rw.Write b).body = b ∧ (rw.Write b).header = rw.header := by
  unfold ResponseWriter.Write ResponseWriter.WriteHeader
  rw [hs, hb]
  exact ⟨rfl, rfl, rfl⟩

/-! ## Facts about the route table -/

theorem filter_key_of_lookup_none {η : Type} (l : List (String × η)) (k : String)
    (h : l.lookup k = none) : l.filter (fun e => e.1 = k) = [] := by
  induction l with
  | nil => rfl
  | cons e l ih =>
    obtain ⟨a, b⟩ := e
    by_cases hka : k = a
    · subst hka
      simp [List.lookup_cons] at h
    · have hne : (k == a) = false := by simpa using hka
      rw [List.lookup_cons, hne] at h
      have hak : ¬ a = k := fun h => hka h.symm
      simp [List.filter_cons, hak, ih h]

theorem api_pattern_ne_empty (url : String) : "/api/" ++ url ≠ "" := by
  intro h
  have hlen := congrArg String.length h
  rw [String.length_append] at hlen
  have h5 : "/api/".length = 5 := by decide
  have h0 : "".length = 0 := by decide
  omega

/-! ## The handlers: claims -/

/-- C2. `EditPassword` called with `auth = false` returns the error with text
exactly "403", whatever the request map and the claimed username; the
database is untouched and no collaborator is called (no hashing, no
statement sent to the database). -/
theorem EditPassword_unauthenticated (env : HandlerEnv) (db : DB) (request : RequestMap)
    (username : String) :
    EditPassword env db request username false =
      { result := .error "403", db := db, calls := [] } := by
  rfl

/-- C4. A missing required field gives the error "400" and nothing else
happens: `EditPassword` with `auth = true` and `newPassword` absent, not a
string or empty; `Register` with `password` absent, not a string or empty, or
with an empty username.  In both cases no collaborator is called and the
database is unchanged. -/
theorem missing_field_is_400 (env : HandlerEnv) (db : DB) (request : RequestMap)
    (username : String) :
    (NotProvided request "newPassword" →
      EditPassword env db request username true =
        { result := .error "400", db := db, calls := [] }) ∧
    (NotProvided request "password" ∨ username = "" →
      ∀ auth, Register env db request username auth =
        { result := .error "400", db := db, calls := [] }) := by
  constructor
  · intro h
    unfold EditPassword
    simp [GetString_of_notProvided request "newPassword" h]
  · intro h auth
    unfold Register
    rcases h with h | h
    · simp [GetString_of_notProvided request "password" h]
    · simp [h]

/-- C4 at a request whose `newPassword` is a number and one without `password`. -/
theorem missing_field_is_400_witness :
    EditPassword (sampleHandlerEnv "false") { users := [] } [("newPassword", .number 5)]
        "alice" true =
      { result := .error "400", db := { users := [] }, calls := [] } ∧
    Register (sampleHandlerEnv "false") { users := [] } [("captcha", .string "c1")]
        "alice" false =
      { result := .error "400", db := { users := [] }, calls := [] } :=
  ⟨(missing_field_is_400 (sampleHandlerEnv "false") { users := [] }
      [("newPassword", .number 5)] "alice").1
      (Or.inr (Or.inl ⟨.number 5, rfl, fun _ h => by cases h⟩)),
   (missing_field_is_400 (sampleHandlerEnv "false") { users := [] }
      [("captcha", .string "c1")] "alice").2 (Or.inl (Or.inl rfl)) false⟩

/-- C5. For a username of 1 to 32 bytes with no row in `users` and a
non-empty password, with the captcha disabled or verified and the query, the
hashing and the insert succeeding, `Register` returns `done: true` and
appends exactly one row: its username is the given one and its passwordhash
is the output of the hashing primitive (cost `DefaultCost + 1`) on the
password.  The statement sent to the database carries that output, so the
column differs from the plaintext whenever the primitive's output does. -/
theorem Register_new_user (env : HandlerEnv) (db : DB) (request : RequestMap)
    (username password hash : String) (auth : Bool)
    (hsize : 1 ≤ username.utf8ByteSize ∧ username.utf8ByteSize ≤ 32)
    (hp : HasPassword request password)
    (hno : ¬ HasUser db username)
    (hcap : CaptchaPasses env request)
    (hq : env.queryFailure = none)
    (hh : env.bcryptGenerateFromPassword password (bcryptDefaultCost + 1) = .ok hash)
    (he : env.execFailure = none) :
    (Register env db request username auth).result = .map [("done", .bool true)] ∧
    (Register env db request username auth).db.users =
      db.users ++ [{ username := username, passwordhash := hash, registered := env.now }] ∧
    Call.dbExec "INSERT INTO users (username, passwordhash, registered) VALUES ($1, $2, $3);"
      [username, hash, env.now] ∈ (Register env db request username auth).calls ∧
    (hash ≠ password →
      ∀ r ∈ (Register env db request username auth).db.users, r ∉ db.users →
        r.passwordhash ≠ password) := by
  have hg : GetString request "password" = password := GetString_of_string _ _ _ hp.1
  have hmain := Register_of_no_user env db request username auth hash
    (ne_empty_of_byteSize username hsize.1) hsize.2 (by rw [hg]; exact hp.2) hcap hq hno
    (by rw [hg]; exact hh) he
  refine ⟨hmain.1, ?_, hmain.2.2, ?_⟩
  · rw [hmain.2.1]
    rfl
  · intro hne r hr hnot
    rw [hmain.2.1] at hr
    simp only [insertUser, List.mem_append, List.mem_singleton] at hr
    rcases hr with hr | hr
    · exact absurd hr hnot
    · rw [hr]
      exact hne

/-- C5 at Scenario A: alice registers against an empty `users` table. -/
theorem Register_new_user_witness :
    (Register (sampleHandlerEnv "false") { users := [] }
        [("username", .string "alice"), ("password", .string "secret123")]
        "alice" false).result = .map [("done", .bool true)] ∧
    (Register (sampleHandlerEnv "false") { users := [] }
        [("username", .string "alice"), ("password", .string "secret123")]
        "alice" false).db.users =
      [{ username := "alice", passwordhash := "$2a$11$secret123",
         registered := "2018-10-01T12:00:00" }] :=
  have h := Register_new_user (sampleHandlerEnv "false") { users := [] }
    [("username", .string "alice"), ("password", .string "secret123")]
    "alice" "secret123" "$2a$11$secret123" false
    ⟨by decide, by decide⟩ ⟨rfl, by decide⟩ (by simp [HasUser])
    (Or.inl (by decide)) rfl rfl rfl
  ⟨h.1, h.2.1⟩

/-- C3, as stated, fails: with the captcha feature switched on and a request
whose captcha does not verify, `Register` for an existing username returns
the error "403 captcha", not the map `done: false`. -/
theorem Register_existing_counterexample :
    HasUser sampleUsers "alice" ∧
    (1 ≤ "alice".utf8ByteSize ∧ "alice".utf8ByteSize ≤ 32) ∧
    HasPassword [("password", .string "secret123")] "secret123" ∧
    (Register (sampleHandlerEnv "true") sampleUsers [("password", .string "secret123")]
      "alice" false).result = .error "403 captcha" ∧
    (Register (sampleHandlerEnv "true") sampleUsers [("password", .string "secret123")]
      "alice" false).result ≠ .map [("done", .bool false)] := by
  refine ⟨⟨_, List.mem_singleton.mpr rfl, rfl⟩, ⟨by decide, by decide⟩, ⟨rfl, by decide⟩,
    rfl, ?_⟩
  intro h
  have h2 : (Register (sampleHandlerEnv "true") sampleUsers
      [("password", .string "secret123")] "alice" false).result = .error "403 captcha" := rfl
  rw [h2] at h
  cases h

/-- C3, amended. For a username of 1 to 32 bytes and a request with a
non-empty password: (1) if a row with the username exists, `Register` leaves
`users` unchanged, whatever the captcha and the database answer; (2) if in
addition the captcha is disabled or verifies and the query succeeds, it
returns `done: false`; (3) if the captcha is enabled and does not verify, it
returns the error "403 captcha" instead, with the database unchanged and
not even queried, whether or not the username exists; (4) after a successful
registration, a second call with the same arguments, for which the captcha
is again disabled or verifies and the query succeeds, returns `done: false`
and leaves the table as the first call left it, with the one row it
appended. -/
theorem Register_existing (env env2 : HandlerEnv) (db : DB) (request : RequestMap)
    (username password hash : String) (auth : Bool)
    (hsize : 1 ≤ username.utf8ByteSize ∧ username.utf8ByteSize ≤ 32)
    (hp : HasPassword request password) :
    (HasUser db username → (Register env db request username auth).db = db) ∧
    (HasUser db username → CaptchaPasses env request → env.queryFailure = none →
      (Register env db request username auth).result = .map [("done", .bool false)]) ∧
    (¬ CaptchaPasses env request →
      Register env db request username auth =
        { result := .error "403 captcha", db := db,
          calls := [Call.captchaVerifyString (GetString request "captcha")
            (GetString request "captchaValue")] }) ∧
    (¬ HasUser db username → CaptchaPasses env request → env.queryFailure = none →
      env.bcryptGenerateFromPassword password (bcryptDefaultCost + 1) = .ok hash →
      env.execFailure = none →
      CaptchaPasses env2 request → env2.queryFailure = none →
      (Register env db request username auth).result = .map [("done", .bool true)] ∧
      (Register env2 (Register env db request username auth).db request username auth).result
        = .map [("done", .bool false)] ∧
      (Register env2 (Register env db request username auth).db request username auth).db.users
        = db.users ++
          [{ username := username, passwordhash := hash, registered := env.now }]) := by
  have hg : GetString request "password" = password := GetString_of_string _ _ _ hp.1
  have hu : username ≠ "" := ne_empty_of_byteSize username hsize.1
  have hpw : GetString request "password" ≠ "" := by rw [hg]; exact hp.2
  refine ⟨fun h => Register_db_of_hasUser env db request username auth h,
    fun h hcap hq => Register_result_of_hasUser env db request username auth hu hsize.2 hpw
      hcap hq h,
    fun hcap => Register_of_captcha_fails env db request username auth hu hsize.2 hpw hcap,
    ?_⟩
  intro hno hcap hq hh he hcap2 hq2
  have hmain := Register_of_no_user env db request username auth hash hu hsize.2 hpw hcap hq
    hno (by rw [hg]; exact hh) he
  have hex : HasUser (Register env db request username auth).db username := by
    rw [hmain.2.1]
    exact ⟨_, List.mem_append_right _ (List.mem_singleton.mpr rfl), rfl⟩
  refine ⟨hmain.1, Register_result_of_hasUser env2 _ request username auth hu hsize.2 hpw
    hcap2 hq2 hex, ?_⟩
  rw [Register_db_of_hasUser env2 _ request username auth hex, hmain.2.1]
  rfl

/-- C3, amended, at Scenario B: alice is registered already, or registers twice. -/
theorem Register_existing_witness :
    (Register (sampleHandlerEnv "true") sampleUsers [("password", .string "secret123")]
      "alice" false).db = sampleUsers ∧
    (Register (sampleHandlerEnv "false") sampleUsers [("password", .string "secret123")]
      "alice" false).result = .map [("done", .bool false)] ∧
    Register (sampleHandlerEnv "true") sampleUsers [("password", .string "secret123")]
      "bob" false =
      { result := .error "403 captcha", db := sampleUsers,
        calls := [Call.captchaVerifyString "" ""] } ∧
    (Register (sampleHandlerEnv "false")
      (Register (sampleHandlerEnv "false") { users := [] }
        [("password", .string "secret123")] "alice" false).db
      [("password", .string "secret123")] "alice" false).db.users = sampleUsers.users :=
  have hex : HasUser sampleUsers "alice" := ⟨_, List.mem_singleton.mpr rfl, rfl⟩
  ⟨(Register_existing (sampleHandlerEnv "true") (sampleHandlerEnv "true") sampleUsers
      [("password", .string "secret123")] "alice" "secret123" "" false
      ⟨by decide, by decide⟩ ⟨rfl, by decide⟩).1 hex,
   (Register_existing (sampleHandlerEnv "false") (sampleHandlerEnv "false") sampleUsers
      [("password", .string "secret123")] "alice" "secret123" "" false
      ⟨by decide, by decide⟩ ⟨rfl, by decide⟩).2.1 hex (Or.inl (by decide)) rfl,
   (Register_existing (sampleHandlerEnv "true") (sampleHandlerEnv "true") sampleUsers
      [("password", .string "secret123")] "bob" "secret123" "" false
      ⟨by decide, by decide⟩ ⟨rfl, by decide⟩).2.2.1
      (by unfold CaptchaPasses; decide),
   ((Register_existing (sampleHandlerEnv "false") (sampleHandlerEnv "false") { users := [] }
      [("password", .string "secret123")] "alice" "secret123" "$2a$11$secret123" false
      ⟨by decide, by decide⟩ ⟨rfl, by decide⟩).2.2.2 (by simp [HasUser]) (Or.inl (by decide))
      rfl rfl rfl (Or.inl (by decide)) rfl).2.2⟩

/-! ## `Data`: the file opened -/

/-- C6. For every request path `p` (a path beginning with `/`, as the server
delivers it) that does not contain `..`, the one file `Data` opens is
`assets/avatar.png` when `p` with its first `/` removed equals
`data/avatar/default`, and `p` with its first `/` removed otherwise: the
alias is applied to the path that passed the `..` check, before `os.Open`.
For the path `/data/avatar/default` with the avatar readable, that file is
the one opened and the response has status 200, `Content-Encoding: gzip` and
the level-2 gzip stream of the avatar's contents as body; `SecurityHeaders`,
whose body is not available, is taken to set no header whose canonical key
is `Content-Encoding`. -/
theorem Data_opened_file (env : DataEnv) (header : List (String × String)) (p : String) :
    (IsRequestPath p → ¬ HasDotDot p →
      (Data env (ResponseWriter.fresh header) p).opened =
        [if stringsReplaceSlashOnce p = "data/avatar/default" then "assets/avatar.png"
         else stringsReplaceSlashOnce p]) ∧
    (∀ f, env.osOpen "assets/avatar.png" = .ok f → f.readErr = none →
      (∀ kv ∈ env.securityHeaders, canonicalMIMEHeaderKey kv.1 ≠ "Content-Encoding") →
      (Data env (ResponseWriter.fresh header) "/data/avatar/default").opened =
        ["assets/avatar.png"] ∧
      (Data env (ResponseWriter.fresh header) "/data/avatar/default").gzipInput =
        some f.content ∧
      (Data env (ResponseWriter.fresh header) "/data/avatar/default").rw.status = some 200 ∧
      headerGet (Data env (ResponseWriter.fresh header) "/data/avatar/default").rw.header
        "Content-Encoding" = some "gzip" ∧
      (Data env (ResponseWriter.fresh header) "/data/avatar/default").rw.body =
        env.gzip 2 f.content) := by
  refine ⟨fun hs h => Data_opened_of_clean env _ p (clean_of_leading_slash p hs h), ?_⟩
  intro f hf hr hsec
  have hstrip : stringsReplaceSlashOnce "/data/avatar/default" = "data/avatar/default" := by
    decide
  have hc : stringsContains "data/avatar/default" ".." = false := by decide
  have hcanon : canonicalMIMEHeaderKey "Content-Encoding" = "Content-Encoding" := by decide
  have hD : Data env (ResponseWriter.fresh header) "/data/avatar/default" =
      { rw := gzipRespond env (SecurityHeaders env
          (((ResponseWriter.fresh header).setHeader "Content-Type"
            (env.mimeTypeByExtension (filepathExt "assets/avatar.png") ++ "; charset=utf-8")).setHeader
            "Content-Encoding" "gzip")) f.content,
        opened := ["assets/avatar.png"], gzipInput := some f.content, logged := [] } := by
    unfold Data
    simp only [hstrip, hc, Bool.false_eq_true, if_false, if_true, hf, hr]
  rw [hD]
  obtain ⟨hst, hbd⟩ := SecurityHeaders_status env
    (((ResponseWriter.fresh header).setHeader "Content-Type"
      (env.mimeTypeByExtension (filepathExt "assets/avatar.png") ++ "; charset=utf-8")).setHeader
      "Content-Encoding" "gzip")
  obtain ⟨h1, h2, h3⟩ := Write_of_unwritten _ (env.gzip 2 f.content) hst hbd
  refine ⟨rfl, rfl, h1, ?_, h2⟩
  show headerGet (ResponseWriter.Write _ _).header "Content-Encoding" = some "gzip"
  rw [h3, SecurityHeaders_get env _ _ (fun kv hkv => by rw [hcanon]; exact hsec kv hkv)]
  exact headerGet_headerSet_same _ _ _

/-- C6 at `/data/style.css` and at Scenario E, `/data/avatar/default`. -/
theorem Data_opened_file_witness :
    (Data sampleDataEnv (ResponseWriter.fresh []) "/data/style.css").opened =
      ["data/style.css"] ∧
    (Data sampleDataEnv (ResponseWriter.fresh []) "/data/avatar/default").opened =
      ["assets/avatar.png"] ∧
    (Data sampleDataEnv (ResponseWriter.fresh []) "/data/avatar/default").rw.status = some 200 ∧
    headerGet (Data sampleDataEnv (ResponseWriter.fresh []) "/data/avatar/default").rw.header
      "Content-Encoding" = some "gzip" ∧
    (Data sampleDataEnv (ResponseWriter.fresh []) "/data/avatar/default").rw.body =
      [31, 139, 137, 80, 78, 71] :=
  have h := (Data_opened_file sampleDataEnv [] "/data/avatar/default").2
    { content := [137, 80, 78, 71], readErr := none } rfl rfl (by decide)
  ⟨(Data_opened_file sampleDataEnv [] "/data/style.css").1 rfl
      (by unfold HasDotDot; decide),
   h.1, h.2.2.1, h.2.2.2.1, h.2.2.2.2⟩

/-! ## `cmd/gorum.go`: claims -/

/-- C7. Whatever the configured address, certificate path and key path,
`listen` makes the plaintext call `ListenAndServe` on a server with the
configured address exactly when the certificate path or the key path is
empty; when both are non-empty it makes the call `ListenAndServeTLS` on a
server with the same address, passing exactly the configured certificate and
key. -/
theorem listen_mode (configGet : String → String → String) (Server : Option HttpServer) :
    ((listen configGet Server).serve =
        .ListenAndServe { Addr := configGet "https" "address", TLSConfig := none } ↔
      (configGet "https" "certificate" = "" ∨ configGet "https" "key" = "")) ∧
    ((listen configGet Server).serve.isPlaintext = true ↔
      (configGet "https" "certificate" = "" ∨ configGet "https" "key" = "")) ∧
    (configGet "https" "certificate" ≠ "" ∧ configGet "https" "key" ≠ "" →
      ∃ tc, (listen configGet Server).serve =
        .ListenAndServeTLS { Addr := configGet "https" "address", TLSConfig := some tc }
          (configGet "https" "certificate") (configGet "https" "key")) := by
  by_cases h : configGet "https" "certificate" = "" ∨ configGet "https" "key" = ""
  · have hl : (listen configGet Server).serve =
        .ListenAndServe { Addr := configGet "https" "address", TLSConfig := none } := by
      unfold listen
      simp only [h, if_true]
    refine ⟨⟨fun _ => h, fun _ => hl⟩, ⟨fun _ => h, fun _ => by rw [hl]; rfl⟩, ?_⟩
    rintro ⟨h1, h2⟩
    rcases h with h | h
    · exact absurd h h1
    · exact absurd h h2
  · have hl : ∃ tc, (listen configGet Server).serve =
        .ListenAndServeTLS { Addr := configGet "https" "address", TLSConfig := some tc }
          (configGet "https" "certificate") (configGet "https" "key") := by
      unfold listen
      simp only [h, if_false]
      exact ⟨_, rfl⟩
    obtain ⟨tc, htc⟩ := hl
    refine ⟨⟨fun hp => ?_, fun hh => absurd hh h⟩, ⟨fun hp => ?_, fun hh => absurd hh h⟩,
      fun _ => ⟨tc, htc⟩⟩
    · rw [htc] at hp
      cases hp
    · rw [htc] at hp
      cases hp

/-- C7 at a configuration without and one with certificate and key. -/
theorem listen_mode_witness :
    (listen samplePlainConfigGet none).serve =
      .ListenAndServe { Addr := ":8080", TLSConfig := none } ∧
    ∃ tc, (listen sampleTLSConfigGet none).serve =
      .ListenAndServeTLS { Addr := ":443", TLSConfig := some tc } "cert.pem" "key.pem" :=
  ⟨(listen_mode samplePlainConfigGet none).1.mpr (Or.inl rfl),
   (listen_mode sampleTLSConfigGet none).2.2 ⟨by decide, by decide⟩⟩

/-- C8. When certificate and key are both configured, the TLS profile of the
server `listen` serves on has minimum version TLS 1.2, six cipher suites, each
with ECDHE key exchange and an AEAD cipher that is ChaCha20-Poly1305 or an
AES-GCM variant (hence no CBC suite and no static-RSA key exchange), and the
curve preference list X25519, P-256, P-384, P-521 in that order. -/
theorem listen_tls_profile (configGet : String → String → String)
    (Server : Option HttpServer)
    (hc : configGet "https" "certificate" ≠ "") (hk : configGet "https" "key" ≠ "") :
    ∃ tc, (listen configGet Server).serve.server.TLSConfig = some tc ∧
      tc.MinVersion = .VersionTLS12 ∧
      tc.CipherSuites.length = 6 ∧
      (∀ s ∈ tc.CipherSuites, s.keyExchange = .ECDHE ∧ s.cipher.isAEAD = true ∧
        (s.cipher = .CHACHA20_POLY1305 ∨ s.cipher = .AES_128_GCM ∨ s.cipher = .AES_256_GCM) ∧
        s.cipher ≠ .AES_128_CBC ∧ s.cipher ≠ .AES_256_CBC ∧
        s.cipher ≠ .TripleDES_EDE_CBC ∧ s.keyExchange ≠ .RSA) ∧
      tc.CurvePreferences = [.X25519, .CurveP256, .CurveP384, .CurveP521] := by
  have h : ¬ (configGet "https" "certificate" = "" ∨ configGet "https" "key" = "") := by
    rintro (h | h)
    · exact hc h
    · exact hk h
  unfold listen
  simp only [h, if_false]
  refine ⟨_, rfl, rfl, rfl, ?_, rfl⟩
  decide

/-- C8 at a configuration with certificate and key. -/
theorem listen_tls_profile_witness :
    ∃ tc, (listen sampleTLSConfigGet none).serve.server.TLSConfig = some tc ∧
      tc.MinVersion = .VersionTLS12 ∧
      tc.CipherSuites.length = 6 ∧
      (∀ s ∈ tc.CipherSuites, s.keyExchange = .ECDHE ∧ s.cipher.isAEAD = true ∧
        (s.cipher = .CHACHA20_POLY1305 ∨ s.cipher = .AES_128_GCM ∨ s.cipher = .AES_256_GCM) ∧
        s.cipher ≠ .AES_128_CBC ∧ s.cipher ≠ .AES_256_CBC ∧
        s.cipher ≠ .TripleDES_EDE_CBC ∧ s.keyExchange ≠ .RSA) ∧
      tc.CurvePreferences = [.X25519, .CurveP256, .CurveP384, .CurveP521] :=
  listen_tls_profile sampleTLSConfigGet none (by decide) (by decide)

/-- C9, as stated, fails: registering a second handler for the same url does
fail.  `http.HandleFunc` panics on a pattern that is already registered, so
after `RegisterHandler("login", a)` the call `RegisterHandler("login", b)`
ends in the panic "http: multiple registrations for /api/login". -/
theorem RegisterHandler_twice_counterexample :
    ((RegisterHandler id (ServeMux.empty _) "login" sampleHandlerA).bind
      (fun mux => RegisterHandler id mux "login" sampleHandlerB)) =
      .error "http: multiple registrations for /api/login" := by
  rfl

/-- C9, amended. On a route table with no binding for `"/api/" + url`,
`RegisterHandler(url, h1)` succeeds and leaves exactly one binding for
`"/api/" + url`, which dispatches to (the generated handler of) `h1`; a
following `RegisterHandler(url, h2)` for the same url does not overwrite it
but panics with "http: multiple registrations for /api/<url>". -/
theorem RegisterHandler_binds {α η : Type} (GenerateHandler : α → η) (mux : ServeMux η)
    (url : String) (h1 h2 : α) (hfree : mux.binding ("/api/" ++ url) = none) :
    ∃ mux1, RegisterHandler GenerateHandler mux url h1 = .ok mux1 ∧
      mux1.binding ("/api/" ++ url) = some (GenerateHandler h1) ∧
      mux1.bindingCount ("/api/" ++ url) = 1 ∧
      RegisterHandler GenerateHandler mux1 url h2 =
        .error ("http: multiple registrations for " ++ ("/api/" ++ url)) := by
  unfold ServeMux.binding at hfree
  refine ⟨{ m := ("/api/" ++ url, GenerateHandler h1) :: mux.m }, ?_, ?_, ?_, ?_⟩
  · unfold RegisterHandler ServeMux.HandleFunc
    simp [api_pattern_ne_empty url, hfree]
  · simp [ServeMux.binding, List.lookup_cons]
  · simp [ServeMux.bindingCount, List.filter_cons, filter_key_of_lookup_none mux.m _ hfree]
  · unfold RegisterHandler ServeMux.HandleFunc
    simp [api_pattern_ne_empty url, List.lookup_cons]

/-- C9, amended, at the url `login` on an empty route table. -/
theorem RegisterHandler_binds_witness :
    ∃ mux1, RegisterHandler id (ServeMux.empty _) "login" sampleHandlerA = .ok mux1 ∧
      mux1.binding ("/api/" ++ "login") = some (id sampleHandlerA) ∧
      mux1.bindingCount ("/api/" ++ "login") = 1 ∧
      RegisterHandler id mux1 "login" sampleHandlerB =
        .error ("http: multiple registrations for " ++ ("/api/" ++ "login")) :=
  RegisterHandler_binds id (ServeMux.empty _) "login" sampleHandlerA sampleHandlerB rfl

/-- C10 on the code. With a certificate and a key configured and the
package-level `Server` still `nil`, `listen` serves TLS on a server value
with the configured address while the package-level `Server` stays `nil`;
without certificate and key, `Server` is the value served on. -/
theorem listen_tls_leaves_Server_nil :
    (listen sampleTLSConfigGet none).serve.isPlaintext = false ∧
    (listen sampleTLSConfigGet none).serve.server.Addr = ":443" ∧
    (listen sampleTLSConfigGet none).Server = none ∧
    (listen sampleTLSConfigGet none).Server ≠ some (listen sampleTLSConfigGet none).serve.server ∧
    (listen samplePlainConfigGet none).Server =
      some (listen samplePlainConfigGet none).serve.server := by
  decide

end Gorum
